import Mathlib

/-!
Verification of the near-Earth-object project (`models.py`, `extract.py`,
`write.py`) against its natural-language specification.

Modelling conventions:
* Python floats are modelled by `FloatVal`: either the not-a-number sentinel
  (`float('nan')`) or an exact rational value.  The only float operations the
  modelled code performs are parsing decimal strings, equality comparison,
  `math.isnan`, and fixed-precision formatting, all of which are exact on the
  rationals appearing in the claims.
* Fallible Python code (constructors that may raise `ValueError`,
  attribute access on `None`, string formatting that may raise) is modelled
  with `Option`: `none` is an exception escaping the modelled function.
* Python `dict`s built by the code are modelled as association lists that keep
  Python's insertion-order semantics (assigning to an existing key replaces
  the value in place; a new key is appended).
-/

/- Core rational arithmetic is `@[irreducible]`; concrete evaluation by
`rfl`/`decide` in the witness theorems needs it unfolded. -/
attribute [local semireducible] Rat.inv Rat.mul Rat.add Rat.sub

/-- A Python float as used by `models.py`: the NaN sentinel or an exact value. -/
inductive FloatVal where
  | nan : FloatVal
  | val : ℚ → FloatVal
deriving DecidableEq, Repr

/-- `math.isnan` from the Python standard library. -/
def FloatVal.isnan : FloatVal → Bool
  | .nan => true
  | .val _ => false

/-- Python `==` on floats: NaN compares unequal to everything, itself included. -/
def FloatVal.feq : FloatVal → FloatVal → Bool
  | .val a, .val b => a = b
  | _, _ => false

/-- Numeric value of a decimal digit character. -/
def digitVal (c : Char) : ℕ := c.toNat - '0'.toNat

/-- Value of a digit string read in base 10. -/
def digitsToNat (cs : List Char) : ℕ :=
  cs.foldl (fun acc c => 10 * acc + digitVal c) 0

/-- Split a float literal at the first exponent marker `e`/`E`. -/
def splitExp : List Char → List Char × Option (List Char)
  | [] => ([], none)
  | c :: cs =>
    if c = 'e' ∨ c = 'E' then ([], some cs)
    else
      let (m, e) := splitExp cs
      (c :: m, e)

/-- Parse the unsigned mantissa of a float literal: digits with at most one
decimal point and at least one digit overall. -/
def parseMantissa (cs : List Char) : Option ℚ :=
  let (ip, rest) := cs.span (·.isDigit)
  match rest with
  | [] => if ip.isEmpty then none else some (digitsToNat ip)
  | '.' :: fp =>
    if fp.all (·.isDigit) && !(ip.isEmpty && fp.isEmpty) then
      some ((digitsToNat ip : ℚ) + (digitsToNat fp : ℚ) / 10 ^ fp.length)
    else none
  | _ => none

/-- Parse an optional sign in front of a numeral. -/
def parseSigned (f : List Char → Option ℚ) : List Char → Option ℚ
  | '+' :: cs => f cs
  | '-' :: cs => (f cs).map (fun q => -q)
  | cs => f cs

/-- Parse the exponent part of a float literal: optional sign, then digits. -/
def parseExpInt : List Char → Option ℤ
  | '+' :: cs => if cs.isEmpty || !cs.all (·.isDigit) then none else some (digitsToNat cs)
  | '-' :: cs => if cs.isEmpty || !cs.all (·.isDigit) then none else some (-(digitsToNat cs : ℤ))
  | cs => if cs.isEmpty || !cs.all (·.isDigit) then none else some (digitsToNat cs)

/-- Python's `float(s)` on decimal string literals (optional sign, digits with
an optional decimal point, optional exponent).  `none` models the `ValueError`
raised on a non-numeric string. -/
def parseFloat (s : String) : Option ℚ :=
  let (m, e) := splitExp s.toList
  match parseSigned parseMantissa m, e with
  | some q, none => some q
  | some q, some ecs => (parseExpInt ecs).map (fun k => q * (10 : ℚ) ^ k)
  | none, _ => none

/-- A calendar timestamp at minute resolution, as produced by the project's
time-parsing helper. -/
structure PyDateTime where
  year : ℕ
  month : ℕ
  day : ℕ
  hour : ℕ
  minute : ℕ
deriving DecidableEq, Repr

/-- Three-letter month abbreviations of the compact NASA datetime format. -/
def monthOfAbbrev : String → Option ℕ
  | "Jan" => some 1
  | "Feb" => some 2
  | "Mar" => some 3
  | "Apr" => some 4
  | "May" => some 5
  | "Jun" => some 6
  | "Jul" => some 7
  | "Aug" => some 8
  | "Sep" => some 9
  | "Oct" => some 10
  | "Nov" => some 11
  | "Dec" => some 12
  | _ => none

/-- Modelled from the spec: `cd_to_datetime` from the repository's `helpers`
module, which is not under `src/`.  The spec fixes the input contract as a
compact datetime string of format `YYYY-MMM-DD HH:MM` (minute resolution, no
seconds); `none` models the parse error raised on any other shape. -/
def cd_to_datetime (s : String) : Option PyDateTime :=
  match s.toList with
  | [y1, y2, y3, y4, '-', m1, m2, m3, '-', d1, d2, ' ', h1, h2, ':', n1, n2] =>
    if [y1, y2, y3, y4, d1, d2, h1, h2, n1, n2].all (·.isDigit) then
      match monthOfAbbrev (String.mk [m1, m2, m3]) with
      | some mo =>
        let day := digitsToNat [d1, d2]
        let hr := digitsToNat [h1, h2]
        let mi := digitsToNat [n1, n2]
        if 1 ≤ day ∧ day ≤ 31 ∧ hr < 24 ∧ mi < 60 then
          some ⟨digitsToNat [y1, y2, y3, y4], mo, day, hr, mi⟩
        else none
      | none => none
    else none
  | _ => none

/-- Month number back to its three-letter abbreviation (total on 1..12). -/
def abbrevOfMonth : ℕ → String
  | 1 => "Jan"
  | 2 => "Feb"
  | 3 => "Mar"
  | 4 => "Apr"
  | 5 => "May"
  | 6 => "Jun"
  | 7 => "Jul"
  | 8 => "Aug"
  | 9 => "Sep"
  | 10 => "Oct"
  | 11 => "Nov"
  | 12 => "Dec"
  | _ => ""

/-- Zero-pad a natural number to at least two digits. -/
def pad2 (n : ℕ) : String :=
  if n < 10 then "0" ++ toString n else toString n

/-- Zero-pad a natural number to at least four digits. -/
def pad4 (n : ℕ) : String :=
  if n < 10 then "000" ++ toString n
  else if n < 100 then "00" ++ toString n
  else if n < 1000 then "0" ++ toString n
  else toString n

/-- Modelled from the spec: `datetime_to_str` from the repository's `helpers`
module, which is not under `src/`.  It formats a timestamp back into the
compact `YYYY-MMM-DD HH:MM` form used in human-readable views and in
serialization to CSV and JSON. -/
def datetime_to_str (t : PyDateTime) : String :=
  pad4 t.year ++ "-" ++ abbrevOfMonth t.month ++ "-" ++ pad2 t.day ++ " " ++
    pad2 t.hour ++ ":" ++ pad2 t.minute

/-- A Python value appearing in the serialization dictionaries of `models.py`. -/
inductive PyVal where
  | str : String → PyVal
  | float : FloatVal → PyVal
  | bool : Bool → PyVal
deriving DecidableEq, Repr

/-- Floor of a rational as an integer (flooring division of the numerator by
the denominator). -/
def ratFloor (q : ℚ) : ℤ := q.num.fdiv (q.den : ℤ)

/-- Round a rational to the nearest integer, ties to even (Python rounding). -/
def roundHalfEven (q : ℚ) : ℤ :=
  let f := ratFloor q
  let r := q - (f : ℚ)
  if r < 1 / 2 then f
  else if r > 1 / 2 then f + 1
  else if f % 2 = 0 then f else f + 1

/-- Zero-pad the decimal numeral of `n` to at least `k` digits. -/
def padZeros (k : ℕ) (n : ℕ) : String :=
  let s := toString n
  String.mk (List.replicate (k - s.length) '0') ++ s

/-- Python fixed-point formatting `f"{q:.<prec>f}"` of an exact value. -/
def formatFixed (prec : ℕ) (q : ℚ) : String :=
  let n := roundHalfEven (q * (10 : ℚ) ^ prec)
  (if n < 0 then "-" else "") ++
    toString (n.natAbs / 10 ^ prec) ++ "." ++ padZeros prec (n.natAbs % 10 ^ prec)

/-- Python `format(x, '.3f')`.  On a string it raises
`ValueError: Unknown format code 'f' for object of type 'str'`, modelled as
`none`; on floats it formats to three decimals (`nan` prints as `"nan"`, and a
bool is an int in Python, formatting as 0 or 1). -/
def pyFormatFixed3 : PyVal → Option String
  | .str _ => none
  | .float .nan => some "nan"
  | .float (.val q) => some (formatFixed 3 q)
  | .bool b => some (formatFixed 3 (if b then 1 else 0))

/-- `NearEarthObject` from `models.py`.  The `approaches` attribute (set to the
empty list by the constructor and appended to only by the `NEODatabase` linker,
which lives outside the modelled source files) is omitted: it would make the
two record types mutually cyclic by reference, and no modelled operation reads
it. -/
structure NearEarthObject where
  designation : String
  name : Option String
  diameter : FloatVal
  hazardous : Bool
deriving DecidableEq, Repr

/-- `NearEarthObject.__init__`: normalizes the four raw strings.  A falsy
(empty) `name` becomes `None`; a falsy (empty) `diameter` becomes
`float('nan')`, any other diameter goes through `float(...)`, whose
`ValueError` on a non-numeric string is the `none` outcome; `hazardous` is
`True` exactly for the flag `'Y'`.  The designation is stored unchecked. -/
def NearEarthObject.init (designation name diameter hazardous : String) :
    Option NearEarthObject :=
  match (if diameter = "" then some FloatVal.nan
         else (parseFloat diameter).map FloatVal.val) with
  | none => none
  | some diam =>
    some { designation := designation
           name := if name = "" then none else some name
           diameter := diam
           hazardous := hazardous == "Y" }

/-- Python f-string interpolation of an optional string: `None` prints as the
literal `"None"`. -/
def pyStr : Option String → String
  | some s => s
  | none => "None"

/-- `NearEarthObject.fullname`: the literal f-string
`f"{self.designation} - {self.name}"` from the source. -/
def NearEarthObject.fullname (neo : NearEarthObject) : String :=
  neo.designation ++ " - " ++ pyStr neo.name

/-- `NearEarthObject.__str__`.  In the source the format spec `:.3f` applies
to the whole conditional expression
`'not available' if math.isnan(self.diameter) else self.diameter`, so it is
applied to the *string* `'not available'` in the NaN branch; `none` models the
resulting `ValueError`. -/
def NearEarthObject.str (neo : NearEarthObject) : Option String :=
  (pyFormatFixed3 (if neo.diameter.isnan then PyVal.str "not available"
                   else PyVal.float neo.diameter)).map
    (fun dstr =>
      neo.fullname ++ ", has a diameter of " ++ dstr ++ ", and " ++
        (if neo.hazardous then "is" else "is not") ++ " potentially hazardous.")

/-- The name branch of `NearEarthObject.serialize`: `self.name` if truthy
(`None` and the empty string are falsy), else `''`. -/
def serializeName : Option String → String
  | some n => if n = "" then "" else n
  | none => ""

/-- `NearEarthObject.serialize`: the attribute dictionary, in insertion order.
A falsy `name` (`None` or the empty string) serializes as `''`. -/
def NearEarthObject.serialize (neo : NearEarthObject) : List (String × PyVal) :=
  [("designation", .str neo.designation),
   ("name", .str (serializeName neo.name)),
   ("diameter_km", .float neo.diameter),
   ("potentially_hazardous", .bool neo.hazardous)]

/-- `CloseApproach` from `models.py`.  The private `_designation` keeps the raw
foreign key; `neo` is `None` until the linker (outside the modelled files)
sets it. -/
structure CloseApproach where
  raw_designation : String
  time : PyDateTime
  distance : ℚ
  velocity : ℚ
  neo : Option NearEarthObject
deriving DecidableEq, Repr

/-- `CloseApproach.__init__`: parses the datetime via `cd_to_datetime` and the
two numeric strings via `float(...)`; any parse failure is a construction
error (`none`).  `neo` starts out as `None`. -/
def CloseApproach.init (designation time distance velocity : String) :
    Option CloseApproach := do
  let t ← cd_to_datetime time
  let d ← parseFloat distance
  let v ← parseFloat velocity
  pure ⟨designation, t, d, v, none⟩

/-- `CloseApproach.time_str`: formatted approach time. -/
def CloseApproach.time_str (ca : CloseApproach) : String :=
  datetime_to_str ca.time

/-- `CloseApproach.__str__`: dereferences `self.neo.fullname` unconditionally,
so with `neo` still `None` it raises `AttributeError` (`none` here). -/
def CloseApproach.str (ca : CloseApproach) : Option String :=
  ca.neo.map (fun n =>
    "On " ++ ca.time_str ++ ", " ++ n.fullname ++
      " approaches Earth at a distance of " ++ formatFixed 2 ca.distance ++
      " au and a velocity of " ++ formatFixed 2 ca.velocity ++ " km/s.")

/-- `CloseApproach.serialize`: the attribute dictionary, in insertion order. -/
def CloseApproach.serialize (ca : CloseApproach) : List (String × PyVal) :=
  [("datetime_utc", .str (datetime_to_str ca.time)),
   ("distance_au", .float (.val ca.distance)),
   ("velocity_km_s", .float (.val ca.velocity))]

/-- One row of the NEO CSV file as delivered by `csv.DictReader`: the columns
`load_neos` reads. -/
structure NeoRow where
  pdes : String
  name : String
  diameter : String
  pha : String
deriving DecidableEq, Repr

/-- Python `d[k] = v` on an insertion-ordered dict modelled as an association
list: replace in place if the key exists, else append. -/
def dictInsert (d : List (String × NearEarthObject)) (k : String)
    (v : NearEarthObject) : List (String × NearEarthObject) :=
  if d.any (fun p => p.1 = k) then
    d.map (fun p => if p.1 = k then (k, v) else p)
  else d ++ [(k, v)]

/-- Python `d[k]` lookup on the association-list dict. -/
def dictLookup (d : List (String × NearEarthObject)) (k : String) :
    Option NearEarthObject :=
  (d.find? (fun p => p.1 = k)).map (fun p => p.2)

/-- The loop body of `load_neos`: starting from the dict built so far, insert
one `NearEarthObject` per remaining row under the row's `pdes` key.  A
construction error propagates out of the loop. -/
def load_neos_from (acc : List (String × NearEarthObject)) :
    List NeoRow → Option (List (String × NearEarthObject))
  | [] => some acc
  | r :: rs =>
    match NearEarthObject.init r.pdes r.name r.diameter r.pha with
    | none => none
    | some neo => load_neos_from (dictInsert acc r.pdes neo) rs

/-- `load_neos` from `extract.py`, with the CSV rows already split into
records (file reading and CSV framing are outside the modelled logic). -/
def load_neos (rows : List NeoRow) : Option (List (String × NearEarthObject)) :=
  load_neos_from [] rows

/-- The parsed JSON input of `load_approaches`: the object's `data` entry, a
list of rows, each row a list of string fields. -/
structure CadData where
  data : List (List String)
deriving DecidableEq, Repr

/-- `load_approaches` from `extract.py`: one `CloseApproach` per entry of
`data`, built from the fields at indices 0, 3, 4 and 7, in order.  An
out-of-range index (`IndexError`) or a construction error propagates. -/
def load_approaches (cad_data : CadData) : Option (List CloseApproach) :=
  cad_data.data.mapM (fun cad => do
    let des ← cad.get? 0
    let t ← cad.get? 3
    let dist ← cad.get? 4
    let vel ← cad.get? 7
    CloseApproach.init des t dist vel)

/-- Python `d[k]` on a serialization dictionary; `none` is a `KeyError`. -/
def attrGet (d : List (String × PyVal)) (k : String) : Option PyVal :=
  (d.find? (fun p => p.1 = k)).map (fun p => p.2)

/-- The loop body of `write_to_csv`: the row of seven cell values written for
one approach.  Accessing `approach.neo.serialize()` with `neo` equal to
`None` raises `AttributeError` (`none`). -/
def csvRow (approach : CloseApproach) : Option (List PyVal) := do
  let approach_attrs := approach.serialize
  let neo ← approach.neo
  let neo_attrs := neo.serialize
  let c1 ← attrGet approach_attrs "datetime_utc"
  let c2 ← attrGet approach_attrs "distance_au"
  let c3 ← attrGet approach_attrs "velocity_km_s"
  let c4 ← attrGet neo_attrs "designation"
  let c5 ← attrGet neo_attrs "name"
  let c6 ← attrGet neo_attrs "diameter_km"
  let c7 ← attrGet neo_attrs "potentially_hazardous"
  pure [c1, c2, c3, c4, c5, c6, c7]

/-- The rows `write_to_csv` writes after the header, one per approach. -/
def write_to_csv_rows (results : List CloseApproach) :
    Option (List (List PyVal)) :=
  results.mapM csvRow

/-- The header row of `write_to_csv`. -/
def csvFieldnames : List String :=
  ["datetime_utc", "distance_au", "velocity_km_s",
   "designation", "name", "diameter_km", "potentially_hazardous"]

/-- A value in one of the JSON records built by `write_to_json`: a primitive
or the nested `neo` object. -/
inductive JVal where
  | prim : PyVal → JVal
  | obj : List (String × PyVal) → JVal
deriving DecidableEq, Repr

/-- The loop body of `write_to_json`: the record built for one approach,
three primitives plus a nested `neo` object of four fields, in insertion
order. -/
def jsonRecord (approach : CloseApproach) : Option (List (String × JVal)) := do
  let approach_attrs := approach.serialize
  let neo ← approach.neo
  let neo_attrs := neo.serialize
  let c1 ← attrGet approach_attrs "datetime_utc"
  let c2 ← attrGet approach_attrs "distance_au"
  let c3 ← attrGet approach_attrs "velocity_km_s"
  let n1 ← attrGet neo_attrs "designation"
  let n2 ← attrGet neo_attrs "name"
  let n3 ← attrGet neo_attrs "diameter_km"
  let n4 ← attrGet neo_attrs "potentially_hazardous"
  pure [("datetime_utc", JVal.prim c1),
        ("distance_au", JVal.prim c2),
        ("velocity_km_s", JVal.prim c3),
        ("neo", JVal.obj [("designation", n1), ("name", n2),
                          ("diameter_km", n3), ("potentially_hazardous", n4)])]

/-- The list of records `write_to_json` dumps, one per approach. -/
def write_to_json_records (results : List CloseApproach) :
    Option (List (List (String × JVal))) :=
  results.mapM jsonRecord

/-- The flat field list a JSON record exposes: primitive entries keep their
key, a nested object contributes its own entries. -/
def recordFields : List (String × JVal) → List (String × PyVal)
  | [] => []
  | (k, .prim v) :: rest => (k, v) :: recordFields rest
  | (_, .obj kvs) :: rest => kvs ++ recordFields rest

/-- Concrete record used by several witness theorems: the NEO built from
designation "433", name "Eros", empty diameter, flag "N". -/
def neoEros : NearEarthObject :=
  { designation := "433", name := some "Eros", diameter := FloatVal.nan,
    hazardous := false }

/-- Concrete record used by several witness theorems: the NEO built from
designation "2019 XY", empty name, empty diameter, flag "Y". -/
def neoAnon : NearEarthObject :=
  { designation := "2019 XY", name := none, diameter := FloatVal.nan,
    hazardous := true }

/-- Concrete timestamp fixture: 1900-Dec-27 01:30. -/
def timeSample : PyDateTime :=
  { year := 1900, month := 12, day := 27, hour := 1, minute := 30 }

/-- Concrete close-approach fixture built from designation "433", time
"1900-Dec-27 01:30", distance "0.3", velocity "5.5". -/
def caSample : CloseApproach :=
  { raw_designation := "433", time := timeSample, distance := 3 / 10,
    velocity := 11 / 2, neo := none }

/-- Concrete `load_approaches` input fixture with a single entry whose fields
0, 3, 4 and 7 are populated. -/
def cadSample : CadData :=
  ⟨[["433", "73", "20", "1900-Dec-27 01:30", "0.3", "x", "y", "5.5"]]⟩

/-- Concrete NEO CSV fixture: two rows sharing the designation "433". -/
def neoRowsSample : List NeoRow :=
  [{ pdes := "433", name := "Eros", diameter := "", pha := "N" },
   { pdes := "433", name := "", diameter := "", pha := "Y" }]

/-- The NEO built from the later of the two "433" rows of `neoRowsSample`. -/
def neoLast : NearEarthObject :=
  { designation := "433", name := none, diameter := FloatVal.nan,
    hazardous := true }

/-- The dict `load_neos` returns on `neoRowsSample`. -/
def dbSample : List (String × NearEarthObject) := [("433", neoLast)]

/-- The seven output cell values of one linked approach, in writer column
order: the three approach fields followed by the four NEO fields. -/
def linkedRow (ca : CloseApproach) (n : NearEarthObject) : List PyVal :=
  [PyVal.str (datetime_to_str ca.time), PyVal.float (FloatVal.val ca.distance),
   PyVal.float (FloatVal.val ca.velocity), PyVal.str n.designation,
   PyVal.str (n.name.getD ""), PyVal.float n.diameter, PyVal.bool n.hazardous]

/-- Concrete NEO fixture with a known diameter, for the writer witness. -/
def neoErosVal : NearEarthObject :=
  { designation := "433", name := some "Eros",
    diameter := FloatVal.val (421 / 25), hazardous := false }

/-- Concrete linked close-approach fixture for the writer witness. -/
def caLinked : CloseApproach := { caSample with neo := some neoErosVal }

/-! ### General lemmas shared by several claims -/

theorem serializeName_eq_getD (o : Option String) : serializeName o = o.getD "" := by
  cases o with
  | none => rfl
  | some n =>
    by_cases h : n = "" <;> simp [serializeName, h]

/-! ### Claims -/

/-- C1: the source's `fullname` is the unconditional f-string
`f"{self.designation} - {self.name}"`, so an NEO with an absent name renders
with a dangling separator and the literal `None`: `"433 - None"`, not `"433"`
as the claim requires. -/
theorem fullname_none_artifact :
    (NearEarthObject.init "433" "" "" "N").map NearEarthObject.fullname =
        some "433 - None" ∧ ("433 - None" : String) ≠ "433" :=
  ⟨rfl, by decide⟩

/-- C2 counterexample: `NearEarthObject.__init__` never checks the
designation, so construction with the empty designation succeeds (no
construction error); yet construction with a non-empty designation and the
non-numeric diameter `"oops"` fails on `float('oops')`.  Both contradict
"raises if and only if the designation string is empty". -/
theorem neo_init_unchecked_designation :
    (NearEarthObject.init "" "" "" "").isSome = true ∧
      NearEarthObject.init "2019 XY" "" "oops" "N" = none :=
  ⟨rfl, rfl⟩

/-- C2 amended: `NearEarthObject` construction succeeds if and only if the
diameter string is empty or parses as a float; the designation is never
validated, and name/hazardous never cause an error. -/
theorem neo_init_isSome_iff (designation name diameter hazardous : String) :
    (NearEarthObject.init designation name diameter hazardous).isSome = true ↔
      diameter = "" ∨ (parseFloat diameter).isSome = true := by
  by_cases hd : diameter = ""
  · simp [NearEarthObject.init, hd]
  · cases hp : parseFloat diameter <;>
      simp [NearEarthObject.init, hd, hp]

/-- C3: in `NearEarthObject.__str__` the format spec `:.3f` applies to the
whole conditional expression, so in the NaN branch Python formats the *string*
`'not available'` with `.3f` and raises
`ValueError: Unknown format code 'f' for object of type 'str'` instead of
producing a string containing "not available".  For a known diameter the
view does show three decimals. -/
theorem neo_str_nan_raises :
    (NearEarthObject.init "2020 AB" "" "" "N").map NearEarthObject.str =
        some none ∧
      (NearEarthObject.init "433" "Eros" "16.84" "N").map NearEarthObject.str =
        some (some
          "433 - Eros, has a diameter of 16.840, and is not potentially hazardous.") :=
  ⟨rfl, by decide⟩

/-- C4: an NEO constructed from an empty diameter string carries the NaN
sentinel (not a default magnitude), which fails every float equality check in
either order, itself included; and an NEO constructed from an empty name
string has `name` equal to `None`, not the empty string. -/
theorem neo_empty_inputs_sentinels (d₁ n₁ h₁ d₂ m₂ h₂ : String)
    (x : FloatVal) (neo₁ neo₂ : NearEarthObject)
    (hc₁ : NearEarthObject.init d₁ n₁ "" h₁ = some neo₁)
    (hc₂ : NearEarthObject.init d₂ "" m₂ h₂ = some neo₂) :
    neo₁.diameter = FloatVal.nan ∧
      neo₁.diameter.feq x = false ∧ x.feq neo₁.diameter = false ∧
      neo₂.name = none := by
  simp [NearEarthObject.init] at hc₁
  subst hc₁
  refine ⟨rfl, by cases x <;> rfl, by cases x <;> rfl, ?_⟩
  unfold NearEarthObject.init at hc₂
  split at hc₂
  · exact absurd hc₂ (by simp)
  · rw [Option.some.injEq] at hc₂
    rw [← hc₂]
    rfl

/-- C4 witness: the sentinel fields at concrete inputs, the self-comparison
of the NaN diameter against itself included. -/
theorem neo_empty_inputs_sentinels_witness :
    neoEros.diameter = FloatVal.nan ∧
      neoEros.diameter.feq FloatVal.nan = false ∧
      FloatVal.feq FloatVal.nan neoEros.diameter = false ∧
      neoAnon.name = none :=
  neo_empty_inputs_sentinels "433" "Eros" "N" "2019 XY" "" "Y"
    FloatVal.nan neoEros neoAnon rfl rfl

/-- C5: `serialize()` produces exactly the four fields `designation`, `name`,
`diameter_km`, `potentially_hazardous`, with `name` the empty string when the
in-memory name is absent and the stored name otherwise; and the NEO built from
name "Ganymed", diameter "37.675", hazardous "N" serializes to name
"Ganymed", diameter_km 37.675, potentially_hazardous False. -/
theorem neo_serialize_fields :
    (∀ neo : NearEarthObject,
        neo.serialize.map Prod.fst =
            ["designation", "name", "diameter_km", "potentially_hazardous"] ∧
          attrGet neo.serialize "designation" =
            some (PyVal.str neo.designation) ∧
          attrGet neo.serialize "name" = some (PyVal.str (neo.name.getD "")) ∧
          attrGet neo.serialize "diameter_km" =
            some (PyVal.float neo.diameter) ∧
          attrGet neo.serialize "potentially_hazardous" =
            some (PyVal.bool neo.hazardous)) ∧
      (NearEarthObject.init "1036" "Ganymed" "37.675" "N").map
          NearEarthObject.serialize =
        some [("designation", PyVal.str "1036"),
              ("name", PyVal.str "Ganymed"),
              ("diameter_km", PyVal.float (FloatVal.val (37675 / 1000))),
              ("potentially_hazardous", PyVal.bool false)] := by
  constructor
  · intro neo
    refine ⟨rfl, rfl, ?_, rfl, rfl⟩
    show some (PyVal.str (serializeName neo.name)) = _
    rw [serializeName_eq_getD]
  · decide

/-- C10: `CloseApproach.__str__` is well-defined exactly when the `neo`
reference is non-null: it dereferences `self.neo.fullname`, so with `neo`
equal to `None` it raises instead of producing a string. -/
theorem close_approach_str_defined_iff (ca : CloseApproach) :
    (ca.str).isSome = (ca.neo).isSome := by
  cases h : ca.neo <;> simp [CloseApproach.str, h]

/-- C6: `CloseApproach` construction on a well-formed compact datetime string
succeeds exactly when both numeric strings parse as floats, storing the parsed
values; a non-numeric distance or velocity is a construction error. -/
theorem close_approach_init_spec (des time dist vel : String) (t : PyDateTime)
    (ht : cd_to_datetime time = some t) :
    (∀ d v, parseFloat dist = some d → parseFloat vel = some v →
        CloseApproach.init des time dist vel =
          some { raw_designation := des, time := t, distance := d,
                 velocity := v, neo := none }) ∧
      ((parseFloat dist = none ∨ parseFloat vel = none) →
        CloseApproach.init des time dist vel = none) := by
  constructor
  · intro d v hd hv
    simp [CloseApproach.init, ht, hd, hv]
  · rintro (h | h)
    · simp [CloseApproach.init, ht, h]
    · cases hd : parseFloat dist <;> simp [CloseApproach.init, ht, h, hd]

/-- C6 witness: construction at concrete well-formed inputs stores the parsed
floats 0.3 and 5.5. -/
theorem close_approach_init_spec_witness :
    CloseApproach.init "433" "1900-Dec-27 01:30" "0.3" "5.5" =
      some { raw_designation := "433", time := timeSample,
             distance := 3 / 10, velocity := 11 / 2, neo := none } :=
  (close_approach_init_spec "433" "1900-Dec-27 01:30" "0.3" "5.5" timeSample
      (by decide)).1 (3 / 10) (11 / 2) (by decide) (by decide)

/-- Specification of `List.mapM` over `Option`: success relates input and
output elementwise. -/
theorem mapM_option_forall₂ {α β : Type} (f : α → Option β) :
    ∀ (l : List α) (res : List β), l.mapM f = some res →
      List.Forall₂ (fun a b => f a = some b) l res := by
  intro l
  induction l with
  | nil =>
    intro res h
    simp only [List.mapM_nil, Option.pure_def, Option.some.injEq] at h
    rw [← h]
    exact List.Forall₂.nil
  | cons a as ih =>
    intro res h
    rw [List.mapM_cons] at h
    simp only [Option.bind_eq_bind, Option.pure_def, Option.bind_eq_some,
      Option.some.injEq] at h
    obtain ⟨b, hb, bs, hbs, rfl⟩ := h
    exact List.Forall₂.cons hb (ih bs hbs)

/-- C9: a successful `load_approaches` returns one `CloseApproach` per entry
of the input's `data` list, in the same order, each constructed from that
entry's fields at indices 0 (designation), 3 (time), 4 (distance) and
7 (velocity). -/
theorem load_approaches_per_entry (cad_data : CadData)
    (cas : List CloseApproach) (h : load_approaches cad_data = some cas) :
    cas.length = cad_data.data.length ∧
      List.Forall₂ (fun cad ca => ∃ des t dist vel,
          cad.get? 0 = some des ∧ cad.get? 3 = some t ∧
            cad.get? 4 = some dist ∧ cad.get? 7 = some vel ∧
            CloseApproach.init des t dist vel = some ca)
        cad_data.data cas := by
  have h2 := mapM_option_forall₂ _ _ _ h
  refine ⟨(List.Forall₂.length_eq h2).symm, h2.imp ?_⟩
  intro cad ca hca
  simp only [Option.bind_eq_bind, Option.bind_eq_some] at hca
  obtain ⟨des, hdes, t, ht, dist, hdist, vel, hvel, hinit⟩ := hca
  exact ⟨des, t, dist, vel, hdes, ht, hdist, hvel, hinit⟩

/-- C9 witness: the single-entry fixture loads to the single expected
approach. -/
theorem load_approaches_per_entry_witness :
    ([caSample].length = cadSample.data.length ∧
      List.Forall₂ (fun cad ca => ∃ des t dist vel,
          cad.get? 0 = some des ∧ cad.get? 3 = some t ∧
            cad.get? 4 = some dist ∧ cad.get? 7 = some vel ∧
            CloseApproach.init des t dist vel = some ca)
        cadSample.data [caSample]) :=
  load_approaches_per_entry cadSample [caSample] (by decide)

/-- After replacing the value stored under `k`, looking for `k` finds the new
pair. -/
theorem find?_map_replace (k : String) (v : NearEarthObject) :
    ∀ d : List (String × NearEarthObject),
      d.any (fun p => p.1 = k) = true →
      (d.map (fun p => if p.1 = k then (k, v) else p)).find?
        (fun p => p.1 = k) = some (k, v) := by
  intro d
  induction d with
  | nil => intro h; simp at h
  | cons p ps ih =>
    intro h
    by_cases hp : p.1 = k
    · simp [List.find?_cons, hp]
    · have h' : ps.any (fun p => p.1 = k) = true := by
        simpa [List.any_cons, hp] using h
      simp [List.find?_cons, hp, ih h']

/-- Replacing the value stored under `k` does not change lookups of other
keys. -/
theorem find?_map_replace_ne (k j : String) (v : NearEarthObject)
    (hjk : j ≠ k) :
    ∀ d : List (String × NearEarthObject),
      (d.map (fun p => if p.1 = k then (k, v) else p)).find?
          (fun p => p.1 = j) = d.find? (fun p => p.1 = j) := by
  intro d
  induction d with
  | nil => rfl
  | cons p ps ih =>
    by_cases hp : p.1 = k
    · have hpj : ¬p.1 = j := by
        rw [hp]; exact fun hh => hjk hh.symm
      simp [List.find?_cons, hp, hpj, Ne.symm hjk, ih]
    · by_cases hj : p.1 = j <;> simp [List.find?_cons, hp, hj, hjk, ih]

/-- Python dict assignment then lookup of the same key yields the new value. -/
theorem dictLookup_insert_self (d : List (String × NearEarthObject))
    (k : String) (v : NearEarthObject) :
    dictLookup (dictInsert d k v) k = some v := by
  unfold dictInsert dictLookup
  by_cases h : d.any (fun p => p.1 = k) = true
  · rw [if_pos h, find?_map_replace k v d h]
    rfl
  · rw [if_neg h, List.find?_append]
    have hnone : d.find? (fun p => p.1 = k) = none := by
      rw [List.find?_eq_none]
      intro p hp hpk
      exact h (List.any_eq_true.mpr ⟨p, hp, hpk⟩)
    rw [hnone]
    simp [List.find?_cons]

/-- Python dict assignment does not change lookups of other keys. -/
theorem dictLookup_insert_ne (d : List (String × NearEarthObject))
    (k j : String) (v : NearEarthObject) (hjk : j ≠ k) :
    dictLookup (dictInsert d k v) j = dictLookup d j := by
  unfold dictInsert dictLookup
  by_cases h : d.any (fun p => p.1 = k) = true
  · rw [if_pos h, find?_map_replace_ne k j v hjk]
  · rw [if_neg h, List.find?_append]
    have h2 : List.find? (fun p => p.1 = j) [(k, v)] = none := by
      simp [List.find?_cons, Ne.symm hjk]
    rw [h2]
    cases d.find? (fun p => p.1 = j) <;> rfl

/-- A successfully constructed NEO stores the designation it was built from. -/
theorem init_designation (p n m hz : String) (neo : NearEarthObject)
    (hc : NearEarthObject.init p n m hz = some neo) : neo.designation = p := by
  unfold NearEarthObject.init at hc
  split at hc
  · exact absurd hc (by simp)
  · rw [Option.some.injEq] at hc
    rw [← hc]

/-- Loop invariant of `load_neos`: in the final dict, a key `d` holds the NEO
built from the last row whose `pdes` is `d`, or keeps its value from the
accumulator when no row matches. -/
theorem load_neos_from_lookup (d : String) :
    ∀ (rows : List NeoRow) (acc db : List (String × NearEarthObject)),
      load_neos_from acc rows = some db →
      dictLookup db d =
        match (rows.filter (fun r => r.pdes = d)).getLast? with
        | some r => NearEarthObject.init r.pdes r.name r.diameter r.pha
        | none => dictLookup acc d := by
  intro rows
  induction rows with
  | nil =>
    intro acc db h
    simp only [load_neos_from, Option.some.injEq] at h
    rw [← h]
    rfl
  | cons r rs ih =>
    intro acc db h
    unfold load_neos_from at h
    cases hinit : NearEarthObject.init r.pdes r.name r.diameter r.pha with
    | none => rw [hinit] at h; exact absurd h (by simp)
    | some neo =>
      rw [hinit] at h
      rw [ih (dictInsert acc r.pdes neo) db h]
      rw [List.filter_cons]
      by_cases hrd : r.pdes = d
      · rw [if_pos (by simpa using hrd)]
        subst hrd
        cases hfl : rs.filter (fun r2 => r2.pdes = r.pdes) with
        | nil =>
          show dictLookup (dictInsert acc r.pdes neo) r.pdes =
            NearEarthObject.init r.pdes r.name r.diameter r.pha
          rw [hinit]
          exact dictLookup_insert_self acc r.pdes neo
        | cons a l =>
          rw [List.getLast?_cons_cons]
          cases hlast : (a :: l).getLast? with
          | none => exact absurd hlast (by simp)
          | some r2 => rfl
      · rw [if_neg (by simpa using hrd)]
        cases hlast : (rs.filter (fun r2 => r2.pdes = d)).getLast? with
        | none =>
          exact dictLookup_insert_ne acc r.pdes d neo (fun hh => hrd hh.symm)
        | some r2 => rfl

/-- C8: a successful `load_neos` returns a mapping keyed by designation: every
stored NEO's designation equals its key, and a key holds exactly the NEO
built from the last (later) input row carrying that designation. -/
theorem load_neos_keyed_last_wins (rows : List NeoRow)
    (db : List (String × NearEarthObject)) (h : load_neos rows = some db)
    (d : String) :
    (∀ neo, dictLookup db d = some neo → neo.designation = d) ∧
      dictLookup db d =
        ((rows.filter (fun r => r.pdes = d)).getLast?).bind
          (fun r => NearEarthObject.init r.pdes r.name r.diameter r.pha) := by
  have hl := load_neos_from_lookup d rows [] db h
  have hmain : dictLookup db d =
      ((rows.filter (fun r => r.pdes = d)).getLast?).bind
        (fun r => NearEarthObject.init r.pdes r.name r.diameter r.pha) := by
    rw [hl]
    cases (rows.filter (fun r => r.pdes = d)).getLast? <;> rfl
  refine ⟨?_, hmain⟩
  intro neo hneo
  rw [hmain] at hneo
  cases hlast : (rows.filter (fun r => r.pdes = d)).getLast? with
  | none => rw [hlast] at hneo; exact absurd hneo (by simp)
  | some r =>
    rw [hlast] at hneo
    simp only [Option.some_bind] at hneo
    have hrmem : r ∈ rows.filter (fun r => r.pdes = d) :=
      List.mem_of_mem_getLast? hlast
    have hrd : r.pdes = d := by
      have hm := List.mem_filter.mp hrmem
      exact of_decide_eq_true hm.2
    rw [init_designation r.pdes r.name r.diameter r.pha neo hneo]
    exact hrd

/-- C8 witness: on the two-row fixture sharing designation "433", the lookup
returns the NEO of the later row, whose designation is the key. -/
theorem load_neos_keyed_last_wins_witness :
    neoLast.designation = "433" ∧
      dictLookup dbSample "433" =
        ((neoRowsSample.filter (fun r => r.pdes = "433")).getLast?).bind
          (fun r => NearEarthObject.init r.pdes r.name r.diameter r.pha) :=
  ⟨(load_neos_keyed_last_wins neoRowsSample dbSample (by decide) "433").1
      neoLast (by decide),
    (load_neos_keyed_last_wins neoRowsSample dbSample (by decide) "433").2⟩

/-- `List.mapM` over `Option` on a cons, given both pieces succeed. -/
theorem mapM_option_cons_some {α β : Type} (f : α → Option β) (a : α)
    (l : List α) (b : β) (bs : List β) (ha : f a = some b)
    (hl : l.mapM f = some bs) : (a :: l).mapM f = some (b :: bs) := by
  rw [List.mapM_cons, ha, hl]
  rfl

/-- The CSV row of a linked approach carries exactly the seven values of
`linkedRow`. -/
theorem csvRow_linked (ca : CloseApproach) (n : NearEarthObject)
    (hn : ca.neo = some n) : csvRow ca = some (linkedRow ca n) := by
  simp [csvRow, hn, attrGet, CloseApproach.serialize, NearEarthObject.serialize,
    List.find?_cons, linkedRow, serializeName_eq_getD]

/-- The JSON record of a linked approach: three primitives plus the nested
`neo` object, which is exactly the NEO's serialization dictionary. -/
theorem jsonRecord_linked (ca : CloseApproach) (n : NearEarthObject)
    (hn : ca.neo = some n) :
    jsonRecord ca = some
      [("datetime_utc", JVal.prim (PyVal.str (datetime_to_str ca.time))),
       ("distance_au", JVal.prim (PyVal.float (FloatVal.val ca.distance))),
       ("velocity_km_s", JVal.prim (PyVal.float (FloatVal.val ca.velocity))),
       ("neo", JVal.obj n.serialize)] := by
  simp [jsonRecord, hn, attrGet, CloseApproach.serialize,
    NearEarthObject.serialize, List.find?_cons]

/-- Flattening the JSON record of a linked approach exposes exactly the seven
writer fields paired with the `linkedRow` values. -/
theorem recordFields_linked (ca : CloseApproach) (n : NearEarthObject) :
    recordFields
        [("datetime_utc", JVal.prim (PyVal.str (datetime_to_str ca.time))),
         ("distance_au", JVal.prim (PyVal.float (FloatVal.val ca.distance))),
         ("velocity_km_s", JVal.prim (PyVal.float (FloatVal.val ca.velocity))),
         ("neo", JVal.obj n.serialize)] =
      csvFieldnames.zip (linkedRow ca n) := by
  simp [recordFields, NearEarthObject.serialize, csvFieldnames, linkedRow,
    serializeName_eq_getD]

/-- C7: on a result stream whose approaches all carry a non-null `neo`, both
writers succeed and emit one record per approach in input order, each exposing
exactly the seven fields `datetime_utc`, `distance_au`, `velocity_km_s`,
`designation`, `name`, `diameter_km`, `potentially_hazardous` — for CSV as the
row of the seven cell values in header order, for JSON flattened through the
nested `neo` object — with the last four taken from the linked NEO's
`serialize()` and `name` the empty string when absent. -/
theorem writer_output_contract (results : List CloseApproach)
    (h : ∀ ca ∈ results, ca.neo.isSome = true) :
    ∃ rows recs, write_to_csv_rows results = some rows ∧
      write_to_json_records results = some recs ∧
      List.Forall₂ (fun ca row => ∃ n, ca.neo = some n ∧ row = linkedRow ca n)
        results rows ∧
      List.Forall₂ (fun ca rec => ∃ n, ca.neo = some n ∧
          recordFields rec = csvFieldnames.zip (linkedRow ca n))
        results recs := by
  induction results with
  | nil => exact ⟨[], [], rfl, rfl, List.Forall₂.nil, List.Forall₂.nil⟩
  | cons ca rest ih =>
    obtain ⟨n, hn⟩ := Option.isSome_iff_exists.mp (h ca (by simp))
    obtain ⟨rows, recs, hrows, hrecs, hf1, hf2⟩ :=
      ih (fun x hx => h x (by simp [hx]))
    refine ⟨linkedRow ca n :: rows,
      [("datetime_utc", JVal.prim (PyVal.str (datetime_to_str ca.time))),
       ("distance_au", JVal.prim (PyVal.float (FloatVal.val ca.distance))),
       ("velocity_km_s", JVal.prim (PyVal.float (FloatVal.val ca.velocity))),
       ("neo", JVal.obj n.serialize)] :: recs, ?_, ?_, ?_, ?_⟩
    · exact mapM_option_cons_some csvRow ca rest _ rows
        (csvRow_linked ca n hn) hrows
    · exact mapM_option_cons_some jsonRecord ca rest _ recs
        (jsonRecord_linked ca n hn) hrecs
    · exact List.Forall₂.cons ⟨n, hn, rfl⟩ hf1
    · exact List.Forall₂.cons ⟨n, hn, recordFields_linked ca n⟩ hf2

/-- C7 witness: the writers applied to the single linked fixture approach. -/
theorem writer_output_contract_witness :
    caLinked.neo.isSome = true ∧
      ∃ rows recs, write_to_csv_rows [caLinked] = some rows ∧
        write_to_json_records [caLinked] = some recs ∧
        List.Forall₂
          (fun ca row => ∃ n, ca.neo = some n ∧ row = linkedRow ca n)
          [caLinked] rows ∧
        List.Forall₂ (fun ca rec => ∃ n, ca.neo = some n ∧
            recordFields rec = csvFieldnames.zip (linkedRow ca n))
          [caLinked] recs :=
  ⟨rfl, writer_output_contract [caLinked] (by decide)⟩
